import Mathlib

/-!
Shallow embedding of the conversational RAG orchestrator implemented in
`app/api/chat/route.ts` of the repository under verification.

JavaScript strings are modelled as lists of characters (`Str`), and the
string primitives the route uses (`trim`, `slice(0, n)`,
`Array.prototype.join`, `Array.prototype.slice(-n)`) are modelled as
explicit functions on `Str`.  JavaScript numbers are modelled as
rationals (NaN behaviour is out of scope).  The three external calls
performed by the `POST` handler (OpenAI embeddings, the Supabase RPC,
OpenAI chat completions) are modelled as oracle results fixed before the
request; `POST` additionally returns the trace of external calls it
made, so that short-circuiting claims can be stated.
-/

abbrev Str := List Char

/-- Model of JavaScript `String.prototype.trim`: strip leading and
trailing whitespace. -/
def jsTrim (s : Str) : Str :=
  (s.dropWhile Char.isWhitespace).rdropWhile Char.isWhitespace

/-- Model of JavaScript `Array.prototype.join(sep)`. -/
def jsJoin (sep : Str) : List Str → Str
  | [] => []
  | [a] => a
  | a :: b :: rest => a ++ sep ++ jsJoin sep (b :: rest)

/-- Model of JavaScript `arr.slice(-n)` for a nonnegative `n`.  In
JavaScript `-0 === 0`, so `slice(-0)` is `slice(0)` and returns the
whole array, while for `n ≥ 1` it returns the last `min n length`
elements. -/
def jsSliceFromEnd (l : List α) (n : Nat) : List α :=
  if n = 0 then l else l.drop (l.length - n)

/-- Decimal rendering of a natural number, as produced by JavaScript
template interpolation of `i + 1`. -/
def natStr (n : Nat) : Str := (toString n).data

/-- One entry of the request `messages` array as it may arrive at
runtime: the `role` is an arbitrary string and the `content` field may
be absent (`String(m.content ?? "")` in the source).  A whole entry may
itself be `null`, which the source guards with `m && ...` and `m?.role`;
such entries are modelled as `none` in `List (Option RawMsg)`. -/
structure RawMsg where
  role : Str
  content : Option Str
  deriving DecidableEq

/-- `ClientMsg` of the route: a sanitized turn with
`role ∈ \x7b"user", "assistant"\x7d` and string content. -/
structure ClientMsg where
  role : Str
  content : Str
  deriving DecidableEq

/-- `ChatBody` of the route: the parsed JSON request body. -/
structure ChatBody where
  question : Option Str := none
  message : Option Str := none
  top_k : Option ℚ := none
  messages : Option (List (Option RawMsg)) := none
  deriving DecidableEq

/-- One loosely-typed row returned by the Supabase RPC.  Each candidate
field is either absent (`none`, JavaScript `undefined`/`null`) or
present with a value. -/
structure Row where
  content : Option Str := none
  text : Option Str := none
  chunk : Option Str := none
  body : Option Str := none
  page_text : Option Str := none
  document : Option Str := none
  source : Option Str := none
  url : Option Str := none
  source_url : Option Str := none
  page_url : Option Str := none
  doc_url : Option Str := none
  path : Option Str := none
  similarity : Option ℚ := none
  score : Option ℚ := none
  deriving DecidableEq

/-- `Retrieved` of the route: a normalized evidence record. -/
structure Retrieved where
  text : Str
  source : Str
  similarity : ℚ
  deriving DecidableEq

/-- Passage-text extraction of `searchSupabase`:
`String(row.content ?? row.text ?? row.chunk ?? row.body ??
row.page_text ?? row.document ?? "").trim()`.  `Option.or` is exactly
the JavaScript nullish coalescing `??`. -/
def rowText (row : Row) : Str :=
  jsTrim ((row.content.or (row.text.or (row.chunk.or (row.body.or
    (row.page_text.or row.document))))).getD [])

/-- Source extraction of `searchSupabase`:
`String(row.source ?? row.url ?? row.source_url ?? row.page_url ??
row.doc_url ?? row.path ?? "").trim()`. -/
def rowSource (row : Row) : Str :=
  jsTrim ((row.source.or (row.url.or (row.source_url.or (row.page_url.or
    (row.doc_url.or row.path))))).getD [])

/-- Score extraction of `searchSupabase`:
`Number(row.similarity ?? row.score ?? 0)`. -/
def rowScore (row : Row) : ℚ :=
  (row.similarity.or row.score).getD 0

/-- Row normalization of `searchSupabase` (lines 97–123 of the route):
map every row to a `Retrieved` record and keep only records with
non-empty text (`.filter((r) => r.text.length > 0)`). -/
def normalizeRows (rows : List Row) : List Retrieved :=
  (rows.map fun row =>
    { text := rowText row, source := rowSource row, similarity := rowScore row }).filter
    fun r => decide (0 < r.text.length)

/-- `lastUserFromHistory` of the route: if `messages` is a non-empty
array, take the content of the most recent entry whose role is
`"user"`, trimmed; if that is empty, or there is no such entry, fall
back to `String(body.question ?? body.message ?? "").trim()`. -/
def lastUserFromHistory (body : ChatBody) : Str :=
  match body.messages with
  | some msgs =>
    if msgs.length ≠ 0 then
      let lastUser := msgs.reverse.find? fun m => m.map RawMsg.role == some "user".data
      let q := jsTrim ((lastUser.join.bind RawMsg.content).getD [])
      if q ≠ [] then q
      else jsTrim ((body.question.or body.message).getD [])
    else jsTrim ((body.question.or body.message).getD [])
  | none => jsTrim ((body.question.or body.message).getD [])

/-- The filter–map–filter chain of `normalizeHistory` (before the final
`slice(-maxTurns)`): keep entries whose role is `"user"` or
`"assistant"`, coerce the content to a string truncated to its first
4000 characters (`String(m.content ?? "").slice(0, 4000)`), and keep
only turns whose truncated content is non-empty after trimming. -/
def cleanTurns (raw : List (Option RawMsg)) : List ClientMsg :=
  ((raw.filter fun m =>
      m.map RawMsg.role == some "user".data || m.map RawMsg.role == some "assistant".data).map
    fun m =>
      { role := (m.map RawMsg.role).getD []
        content := ((m.bind RawMsg.content).getD []).take 4000 }).filter
    fun m => decide (0 < (jsTrim m.content).length)

/-- `normalizeHistory` of the route: sanitize the raw turns and keep the
most recent `maxTurns` of them via `cleaned.slice(-maxTurns)`. -/
def normalizeHistory (body : ChatBody) (maxTurns : Nat := 60) : List ClientMsg :=
  jsSliceFromEnd (cleanTurns (body.messages.getD [])) maxTurns

/-- One context item handed to `buildMessagesWithHistory`
(`\x7b text, source \x7d`). -/
structure CtxItem where
  text : Str
  source : Str
  deriving DecidableEq

/-- One outbound role-tagged message block of the assembled prompt. -/
structure OMsg where
  role : Str
  content : Str
  deriving DecidableEq

/-- The system/policy block of `buildMessagesWithHistory`, verbatim. -/
def systemPrompt : Str :=
  ("あなたは与えられたコンテキストに基づいて回答するアシスタントです。\n- 根拠がコンテキストに無い内容は推測しないで「不明」「資料内では特定できません」と答えてください。\n- ユーザーの「この中で」「それ」「さっきの」などは会話履歴を参照して解釈してください。\n- ただし“事実の根拠”は必ずコンテキストに置いてください（履歴は意図解釈用）。\n- 回答は日本語で、できるだけ具体的に。会社名がコンテキスト内に明記されていれば列挙してください。").data

/-- `buildMessagesWithHistory` of the route: one system block, the
history turns verbatim, then a single final user block holding the
indexed evidence digest (each entry
`` [#i] source: <source>\n<text> `` trimmed, joined by blank lines,
`(コンテキストなし)` when the digest is empty) followed by the resolved
query, inside the fixed template. -/
def buildMessagesWithHistory (question : Str) (history : List ClientMsg)
    (contexts : List CtxItem) : List OMsg :=
  let ctx := jsJoin "\n\n".data (contexts.enum.map fun p =>
    jsTrim ("[#".data ++ natStr (p.1 + 1) ++ "] source: ".data ++
      p.2.source ++ "\n".data ++ p.2.text))
  let finalUser := "# コンテキスト\n".data ++
    (if ctx = [] then "(コンテキストなし)".data else ctx) ++
    "\n\n# 今回の質問\n".data ++ question ++ "\n\n# 回答（日本語）\n".data
  { role := "system".data, content := systemPrompt } ::
    (history.map fun m => { role := m.role, content := m.content }) ++
    [{ role := "user".data, content := finalUser }]

/-- A thrown JavaScript error, as observed by the `catch` block
(`e?.name`, `e?.message`). -/
structure JsError where
  name : Str
  message : Str
  deriving DecidableEq

/-- Results of the three external calls, fixed before the request:
the OpenAI embedding call, the Supabase RPC (whose failure carries the
backend `error.message`), and the chat completion call (whose success
carries `choices[0]?.message?.content`, absent modelled as `none`). -/
structure Oracles where
  embedResult : Except JsError (List ℚ)
  rpcResult : Except Str (List Row)
  chatResult : Except JsError (Option Str)

/-- One external call performed by the handler, with the arguments that
the route passes to it. -/
inductive Call
  | embed (input : Str)
  | rpc (name : Str) (matchCount : ℚ) (threshold : Option ℚ)
  | chat (messages : List OMsg)
  deriving DecidableEq

/-- One entry of the `references` array in the response. -/
structure Reference where
  source : Str
  score : ℚ
  deriving DecidableEq

/-- The `meta` object in the response. -/
structure Meta where
  top_k : ℚ
  rpc : Str
  hits : Nat
  threshold : ℚ
  used_history : Nat
  deriving DecidableEq

/-- The JSON response of the handler: status 400 with an error string,
status 500 with an error string, or a successful answer. -/
inductive ChatResponse
  | clientError (error : Str)
  | serverError (error : Str)
  | ok (answer : Str) (references : List Reference) (meta : Meta)
  deriving DecidableEq

/-- The `POST` handler of the route (with `searchSupabase` inlined at
its call site), parameterized by the `RPC_NAME` and `MATCH_THRESHOLD`
environment configuration and by the external-call oracles.  Returns
the response together with the trace of external calls performed, in
order. -/
def POST (rpcName : Str) (matchThreshold : ℚ) (o : Oracles) (body : ChatBody) :
    ChatResponse × List Call :=
  let q := lastUserFromHistory body
  if q = [] then
    (ChatResponse.clientError "question (or message) is required".data, [])
  else
    let topK : ℚ := max 1 (min (body.top_k.getD 20) 60)
    let thresholdArg : Option ℚ :=
      if 0 < matchThreshold then some matchThreshold else none
    match o.embedResult with
    | Except.error e =>
      (ChatResponse.serverError (e.name ++ ": ".data ++ e.message), [Call.embed q])
    | Except.ok _ =>
      match o.rpcResult with
      | Except.error m =>
        (ChatResponse.serverError ("Error: supabase.rpc(".data ++ rpcName ++
            ") failed: ".data ++ m),
          [Call.embed q, Call.rpc rpcName topK thresholdArg])
      | Except.ok rows =>
        let retrieved := normalizeRows rows
        let history := normalizeHistory body 60
        let messages := buildMessagesWithHistory q history
          (retrieved.map fun r => { text := r.text, source := r.source })
        match o.chatResult with
        | Except.error e =>
          (ChatResponse.serverError (e.name ++ ": ".data ++ e.message),
            [Call.embed q, Call.rpc rpcName topK thresholdArg, Call.chat messages])
        | Except.ok content =>
          (ChatResponse.ok (content.getD [])
              (retrieved.map fun r => { source := r.source, score := r.similarity })
              { top_k := topK, rpc := rpcName, hits := retrieved.length,
                threshold := matchThreshold, used_history := history.length },
            [Call.embed q, Call.rpc rpcName topK thresholdArg, Call.chat messages])

/-- Modelled from the spec's words for claim C1 (query resolution):
the content of the most recent turn whose role is `"user"`, trimmed,
when that is non-empty; otherwise the trimmed `question` field, falling
back to the trimmed `message` field. -/
def queryResolverSpec (body : ChatBody) : Str :=
  match (body.messages.getD []).reverse.find?
      (fun m => m.map RawMsg.role == some "user".data) with
  | some t =>
    if jsTrim ((t.bind RawMsg.content).getD []) ≠ [] then
      jsTrim ((t.bind RawMsg.content).getD [])
    else jsTrim ((body.question.or body.message).getD [])
  | none => jsTrim ((body.question.or body.message).getD [])


/-! Concrete inputs used by the witness and counterexample theorems. -/

/-- The RPC name the route uses when `SUPABASE_MATCH_RPC` is unset. -/
def rpcDefault : Str := "match_documents".data

/-- A request body with no resolvable query. -/
def bodyNoQ : ChatBody := {}

/-- Oracles whose three calls all succeed trivially. -/
def oDummy : Oracles := ⟨Except.ok [], Except.ok [], Except.ok none⟩

/-- A body with a single valid user turn (C5 counterexample input). -/
def bodyOneUser : ChatBody :=
  { messages := some [some { role := "user".data, content := some "hi".data }] }

/-- A body with a single valid user turn (C6 counterexample input). -/
def bodySoloTurn : ChatBody :=
  { messages := some [some { role := "user".data, content := some "hello".data }] }

/-- A body with three valid turns (C5 witness input). -/
def bodyThree : ChatBody :=
  { messages := some
      [some { role := "user".data, content := some "a".data },
       some { role := "assistant".data, content := some "b".data },
       some { role := "user".data, content := some "c".data }] }

/-- A row whose `content` field is present but empty while `text` is
non-empty (C3 counterexample input). -/
def rowEmptyContent : Row := { content := some [], text := some "B".data }

/-- A row with both `content` and `text` populated. -/
def rowBothCT : Row := { content := some "A".data, text := some "B".data }

/-- A row with only `page_text` populated. -/
def rowOnlyPT : Row := { page_text := some "P".data }

/-- A row with text but no source field at all (C7 witness input:
unattributed evidence). -/
def rowNoSource : Row := { text := some " A ".data }

/-- A body requesting `top_k = 100` (C8 witness input). -/
def bodyTopK100 : ChatBody := { question := some "hi".data, top_k := some 100 }

/-- The meta object the route produces for `bodyTopK100` with the
trivial oracles. -/
def metaTopK100 : Meta := ⟨60, rpcDefault, 0, 0, 0⟩

/-- A row matching the spec's end-to-end scenario (C9 witness input). -/
def rowDoc1 : Row :=
  { content := some "X is a company.".data, source := some "doc1".data,
    similarity := some 1 }

/-- Oracles for the C9 witness: retrieval returns `rowDoc1`, the model
returns no content. -/
def oDoc1 : Oracles := ⟨Except.ok [], Except.ok [rowDoc1], Except.ok none⟩

/-- The body for the C9 witness. -/
def bodyWhatIsX : ChatBody := { question := some "What is X?".data }

/-- A raw turn whose first 4000 characters are all whitespace but whose
content continues with a non-whitespace character afterwards (C10
witness input). -/
def wsTurn : RawMsg :=
  { role := "user".data, content := some (List.replicate 4000 ' ' ++ "x".data) }

/-- The evidence records of the spec's digest-rendering example (C4
witness input). -/
def ctxExample : List CtxItem :=
  [{ text := "A".data, source := "s1".data }, { text := "B".data, source := [] }]

/-! Helper lemmas. -/

/-- JavaScript `??` over two candidates is the first present value. -/
theorem orChain2_eq {α : Type} (a b : Option α) :
    a.or b = [a, b].findSome? id := by
  cases a <;> cases b <;> rfl

/-- JavaScript `??` over six candidates is the first present value. -/
theorem orChain6_eq {α : Type} (a b c d e f : Option α) :
    a.or (b.or (c.or (d.or (e.or f)))) = [a, b, c, d, e, f].findSome? id := by
  cases a <;> cases b <;> cases c <;> cases d <;> cases e <;> cases f <;> rfl

/-- The value component of an entry of `enumFrom` is a member of the
underlying list. -/
theorem snd_mem_of_mem_enumFrom {α : Type} :
    ∀ (l : List α) (n : Nat) (p : Nat × α), p ∈ l.enumFrom n → p.2 ∈ l := by
  intro l
  induction l with
  | nil => intro n p h; simp [List.enumFrom] at h
  | cons a as ih =>
    intro n p h
    simp only [List.enumFrom, List.mem_cons] at h
    rcases h with rfl | h
    · simp
    · exact List.mem_cons_of_mem _ (ih _ _ h)

/-- The value component of an entry of `enum` is a member of the
underlying list. -/
theorem snd_mem_of_mem_enum {α : Type} {l : List α} {p : Nat × α}
    (h : p ∈ l.enum) : p.2 ∈ l :=
  snd_mem_of_mem_enumFrom l 0 p h

/-- A non-empty string fixed by `jsTrim` ends in a non-whitespace
character. -/
theorem last_not_ws_of_trimmed (t : Str) (h : jsTrim t = t) (hne : t ≠ []) :
    Char.isWhitespace (t.getLast hne) = false := by
  unfold jsTrim at h
  have hsuf : t.dropWhile Char.isWhitespace <:+ t := List.dropWhile_suffix _
  have hpre : (t.dropWhile Char.isWhitespace).rdropWhile Char.isWhitespace <+:
      t.dropWhile Char.isWhitespace := List.rdropWhile_prefix _ _
  have hlen1 := hsuf.sublist.length_le
  have hlen2 := hpre.sublist.length_le
  have hlen3 : ((t.dropWhile Char.isWhitespace).rdropWhile Char.isWhitespace).length
      = t.length := by rw [h]
  have hdw : t.dropWhile Char.isWhitespace = t :=
    hsuf.sublist.eq_of_length (by omega)
  rw [hdw] at h
  have h3 := List.rdropWhile_eq_self_iff.mp h hne
  simpa using h3

/-- `jsTrim` is the identity on a string that starts with `[` and ends
with a trimmed non-empty string. -/
theorem jsTrim_bracket (mid t : Str) (h : jsTrim t = t) (hne : t ≠ []) :
    jsTrim (('[' :: mid) ++ t) = ('[' :: mid) ++ t := by
  have hlast := last_not_ws_of_trimmed t h hne
  have hdec : t.dropLast ++ [t.getLast hne] = t := List.dropLast_append_getLast hne
  have hsplit : ('[' :: mid) ++ t = (('[' :: mid) ++ t.dropLast) ++ [t.getLast hne] := by
    conv_lhs => rw [← hdec]
    rw [List.append_assoc]
  unfold jsTrim
  rw [List.cons_append, List.dropWhile_cons, if_neg (by decide), ← List.cons_append]
  rw [hsplit]
  exact List.rdropWhile_concat_neg _ _ _ (by simp [hlast])

/-- `cleanTurns` distributes over list concatenation. -/
theorem cleanTurns_append (a b : List (Option RawMsg)) :
    cleanTurns (a ++ b) = cleanTurns a ++ cleanTurns b := by
  simp [cleanTurns, List.filter_append, List.map_append]

/-- Every output turn of `cleanTurns` has a sanitized role, non-blank
content, and content of at most 4000 characters. -/
theorem cleanTurns_mem {m : ClientMsg} {raw : List (Option RawMsg)}
    (hm : m ∈ cleanTurns raw) :
    (m.role = "user".data ∨ m.role = "assistant".data) ∧
      jsTrim m.content ≠ [] ∧ m.content.length ≤ 4000 := by
  unfold cleanTurns at hm
  rw [List.mem_filter] at hm
  obtain ⟨hmap, hq⟩ := hm
  rw [List.mem_map] at hmap
  obtain ⟨x, hx, rfl⟩ := hmap
  rw [List.mem_filter] at hx
  obtain ⟨-, hrole⟩ := hx
  refine ⟨?_, ?_, ?_⟩
  · simp only [Bool.or_eq_true, beq_iff_eq] at hrole
    rcases hrole with h | h <;> simp [h]
  · exact List.ne_nil_of_length_pos (of_decide_eq_true hq)
  · simp [List.length_take_le]

/-- `jsJoin` of a list whose first element is non-empty is non-empty. -/
theorem jsJoin_ne_nil (sep a : Str) (rest : List Str) (ha : a ≠ []) :
    jsJoin sep (a :: rest) ≠ [] := by
  cases rest with
  | nil => simpa [jsJoin] using ha
  | cons b r => simp [jsJoin, ha]

/-! Claim theorems. -/

/-- C1: for every request body, the Query Resolver returns the content
of the most recent user turn with surrounding whitespace trimmed when
such a turn exists and its trimmed content is non-empty; otherwise
(messages absent/empty, no user turn, or blank last user content) it
returns the trimmed `question` field, falling back to the trimmed
`message` field. -/
theorem c1_query_resolver (body : ChatBody) :
    lastUserFromHistory body = queryResolverSpec body := by
  obtain ⟨qf, mf, tk, ms⟩ := body
  cases ms with
  | none => rfl
  | some msgs =>
    cases msgs with
    | nil => rfl
    | cons a as =>
      have hcode : lastUserFromHistory ⟨qf, mf, tk, some (a :: as)⟩ =
          (if jsTrim ((((a :: as).reverse.find? fun x =>
              x.map RawMsg.role == some "user".data).join.bind RawMsg.content).getD []) ≠ [] then
            jsTrim ((((a :: as).reverse.find? fun x =>
              x.map RawMsg.role == some "user".data).join.bind RawMsg.content).getD [])
          else jsTrim ((qf.or mf).getD [])) := rfl
      have hspec : queryResolverSpec ⟨qf, mf, tk, some (a :: as)⟩ =
          (match (a :: as).reverse.find? (fun x => x.map RawMsg.role == some "user".data) with
          | some t =>
            if jsTrim ((t.bind RawMsg.content).getD []) ≠ [] then
              jsTrim ((t.bind RawMsg.content).getD [])
            else jsTrim ((qf.or mf).getD [])
          | none => jsTrim ((qf.or mf).getD [])) := rfl
      rw [hcode, hspec]
      cases hfind : (a :: as).reverse.find?
          (fun x => x.map RawMsg.role == some "user".data) with
      | none =>
        simp only [Option.join]
        rw [if_neg (by simp [jsTrim, List.rdropWhile_nil])]
      | some t => rfl

/-- C3 counterexample: for a row whose `content` field is present but
empty while `text` is non-empty, the claimed first-non-empty rule would
use `"B"`, but the code's nullish coalescing selects the empty
`content`, so the extracted text is empty and the record is discarded
entirely. -/
theorem c3_counterexample :
    rowText rowEmptyContent = [] ∧ rowText rowEmptyContent ≠ "B".data ∧
      normalizeRows [rowEmptyContent] = [] := by decide

/-- C3 (amended): the normalization picks the passage text, source and
score by checking the candidate fields in the stated priority order
with the first PRESENT (non-null/undefined) value winning — even when
that value is the empty string — then trimming; the score defaults to 0
when both fields are absent.  With both `content` and `text` populated,
`content` wins; with only `page_text` populated, that value is used. -/
theorem c3_field_priority (row : Row) :
    rowText row = jsTrim (([row.content, row.text, row.chunk, row.body,
        row.page_text, row.document].findSome? id).getD []) ∧
    rowSource row = jsTrim (([row.source, row.url, row.source_url, row.page_url,
        row.doc_url, row.path].findSome? id).getD []) ∧
    rowScore row = ([row.similarity, row.score].findSome? id).getD 0 ∧
    rowText rowBothCT = "A".data ∧
    rowText rowOnlyPT = "P".data := by
  refine ⟨?_, ?_, ?_, by decide, by decide⟩
  · unfold rowText; rw [orChain6_eq]
  · unfold rowSource; rw [orChain6_eq]
  · unfold rowScore; rw [orChain2_eq]

/-- C6 counterexample: with maximum turn count 0 the History Normalizer
does not yield an empty history — `slice(-0)` is `slice(0)` and keeps
every surviving turn. -/
theorem c6_counterexample : normalizeHistory bodySoloTurn 0 ≠ [] := by decide

/-- C6 (amended): calling the History Normalizer with maximum turn
count 0 yields ALL surviving filtered turns (JavaScript `slice(-0)`
equals `slice(0)`), not an empty history; prompt assembly with an empty
history still functions, producing the system block followed directly
by the single final user block. -/
theorem c6_zero_turns (body : ChatBody) (q : Str) (contexts : List CtxItem) :
    normalizeHistory body 0 = cleanTurns (body.messages.getD []) ∧
    buildMessagesWithHistory q [] contexts =
      [{ role := "system".data, content := systemPrompt },
       { role := "user".data, content :=
          "# コンテキスト\n".data ++
          (if jsJoin "\n\n".data (contexts.enum.map fun p =>
              jsTrim ("[#".data ++ natStr (p.1 + 1) ++ "] source: ".data ++
                p.2.source ++ "\n".data ++ p.2.text)) = []
           then "(コンテキストなし)".data
           else jsJoin "\n\n".data (contexts.enum.map fun p =>
              jsTrim ("[#".data ++ natStr (p.1 + 1) ++ "] source: ".data ++
                p.2.source ++ "\n".data ++ p.2.text))) ++
          "\n\n# 今回の質問\n".data ++ q ++ "\n\n# 回答（日本語）\n".data }] := by
  constructor
  · simp [normalizeHistory, jsSliceFromEnd]
  · simp [buildMessagesWithHistory]

/-- C7: every record output by the Evidence Retriever's normalization
has non-empty text (whitespace-only rows are discarded), while any row
with non-empty extracted text — in particular one with an empty source
— is retained. -/
theorem c7_nonempty_text (rows : List Row) :
    (∀ rec ∈ normalizeRows rows, rec.text ≠ []) ∧
    (∀ row ∈ rows, rowText row ≠ [] →
      ({ text := rowText row, source := rowSource row,
         similarity := rowScore row } : Retrieved) ∈ normalizeRows rows) := by
  constructor
  · intro rec hrec
    unfold normalizeRows at hrec
    rw [List.mem_filter] at hrec
    exact List.ne_nil_of_length_pos (of_decide_eq_true hrec.2)
  · intro row hrow hne
    unfold normalizeRows
    rw [List.mem_filter]
    refine ⟨List.mem_map_of_mem _ hrow, ?_⟩
    rw [decide_eq_true_eq]
    exact List.length_pos.mpr hne

/-- C7 witness: a concrete row whose only populated passage field is
`text` and which has no source field at all survives normalization with
an empty source. -/
theorem c7_witness :
    ({ text := rowText rowNoSource, source := rowSource rowNoSource,
       similarity := rowScore rowNoSource } : Retrieved) ∈ normalizeRows [rowNoSource] :=
  (c7_nonempty_text [rowNoSource]).2 rowNoSource (by decide) (by decide)

/-- C4: for every resolved query, history, and list of evidence records
satisfying the retriever's output invariant (trimmed, non-empty text),
the assembled prompt is exactly one leading system block, the history
turns as role-tagged blocks in order with content unchanged, and one
final user block containing the evidence digest — entry `i` rendered as
`` [#i] source: <source>\n<text> `` (1-based, empty source rendered),
joined by blank lines, in order, with an explicit placeholder when the
evidence list is empty — followed by the resolved query. -/
theorem c4_prompt_assembly (q : Str) (history : List ClientMsg)
    (contexts : List CtxItem)
    (h : ∀ c ∈ contexts, jsTrim c.text = c.text ∧ c.text ≠ []) :
    buildMessagesWithHistory q history contexts =
      { role := "system".data, content := systemPrompt } ::
      (history.map fun m => { role := m.role, content := m.content }) ++
      [{ role := "user".data, content :=
          "# コンテキスト\n".data ++
          (if contexts = [] then "(コンテキストなし)".data
           else jsJoin "\n\n".data (contexts.enum.map fun p =>
              "[#".data ++ natStr (p.1 + 1) ++ "] source: ".data ++
                p.2.source ++ "\n".data ++ p.2.text)) ++
          "\n\n# 今回の質問\n".data ++ q ++ "\n\n# 回答（日本語）\n".data }] := by
  have hsh : ∀ (i : Nat) (c : CtxItem),
      "[#".data ++ natStr (i + 1) ++ "] source: ".data ++ c.source ++
          "\n".data ++ c.text
        = ('[' :: ('#' :: natStr (i + 1) ++ "] source: ".data ++ c.source ++
            "\n".data)) ++ c.text := by
    intro i c
    simp [show "[#".data = ['[', '#'] from rfl]
  have hent : (contexts.enum.map fun p =>
        jsTrim ("[#".data ++ natStr (p.1 + 1) ++ "] source: ".data ++
          p.2.source ++ "\n".data ++ p.2.text))
      = contexts.enum.map fun p =>
        "[#".data ++ natStr (p.1 + 1) ++ "] source: ".data ++
          p.2.source ++ "\n".data ++ p.2.text := by
    apply List.map_congr_left
    intro p hp
    obtain ⟨ht, hne⟩ := h p.2 (snd_mem_of_mem_enum hp)
    rw [hsh p.1 p.2, jsTrim_bracket _ _ ht hne]
  simp only [buildMessagesWithHistory]
  rw [hent]
  cases contexts with
  | nil => simp [jsJoin]
  | cons c cs =>
    have hne0 : jsJoin "\n\n".data (((c :: cs).enum.map fun p =>
        "[#".data ++ natStr (p.1 + 1) ++ "] source: ".data ++
          p.2.source ++ "\n".data ++ p.2.text)) ≠ [] := by
      rw [List.enum_cons, List.map_cons]
      apply jsJoin_ne_nil
      rw [hsh 0 c]
      simp
    rw [if_neg hne0, if_neg (by simp)]

/-- C4 witness: the spec's digest-rendering example, with records
`A/s1` and `B`/empty-source, assembled with an empty history. -/
theorem c4_witness :
    buildMessagesWithHistory "What is X?".data [] ctxExample =
      { role := "system".data, content := systemPrompt } ::
      (([] : List ClientMsg).map fun m => { role := m.role, content := m.content }) ++
      [{ role := "user".data, content :=
          "# コンテキスト\n".data ++
          (if ctxExample = [] then "(コンテキストなし)".data
           else jsJoin "\n\n".data (ctxExample.enum.map fun p =>
              "[#".data ++ natStr (p.1 + 1) ++ "] source: ".data ++
                p.2.source ++ "\n".data ++ p.2.text)) ++
          "\n\n# 今回の質問\n".data ++ "What is X?".data ++
          "\n\n# 回答（日本語）\n".data }] :=
  c4_prompt_assembly "What is X?".data [] ctxExample (by decide)

/-- C5 counterexample: with maximum turn count 0 and one surviving
turn, the output length is 1, not at most 0. -/
theorem c5_counterexample : ¬ (normalizeHistory bodyOneUser 0).length ≤ 0 := by decide

/-- C5 (amended): for every maximum turn count N ≥ 1 the History
Normalizer output has length at most N, is a suffix of the filtered
sequence (hence preserves chronological order), contains only
user/assistant turns with non-blank content, and when more than N turns
survive filtering keeps exactly the last N of them; for N = 0 it
instead returns ALL surviving turns (JavaScript `slice(-0)`). -/
theorem c5_history_normalizer (body : ChatBody) (n : Nat) :
    (n = 0 → normalizeHistory body n = cleanTurns (body.messages.getD [])) ∧
    (1 ≤ n →
      (normalizeHistory body n).length ≤ n ∧
      normalizeHistory body n <:+ cleanTurns (body.messages.getD []) ∧
      (∀ m ∈ normalizeHistory body n,
        (m.role = "user".data ∨ m.role = "assistant".data) ∧ jsTrim m.content ≠ []) ∧
      (n < (cleanTurns (body.messages.getD [])).length →
        (normalizeHistory body n).length = n ∧
        normalizeHistory body n = (cleanTurns (body.messages.getD [])).drop
          ((cleanTurns (body.messages.getD [])).length - n))) := by
  constructor
  · intro h0
    subst h0
    simp [normalizeHistory, jsSliceFromEnd]
  · intro h1
    have hne : n ≠ 0 := by omega
    have hdef : normalizeHistory body n = (cleanTurns (body.messages.getD [])).drop
        ((cleanTurns (body.messages.getD [])).length - n) := by
      simp [normalizeHistory, jsSliceFromEnd, hne]
    refine ⟨?_, ?_, ?_, ?_⟩
    · rw [hdef, List.length_drop]
      omega
    · rw [hdef]
      exact List.drop_suffix _ _
    · intro m hm
      rw [hdef] at hm
      have hmem := List.drop_subset _ _ hm
      have hc := cleanTurns_mem hmem
      exact ⟨hc.1, hc.2.1⟩
    · intro hlen
      refine ⟨?_, hdef⟩
      rw [hdef, List.length_drop]
      omega

/-- C5 witness: three surviving turns and N = 2 — the bound holds at a
concrete input. -/
theorem c5_witness : (normalizeHistory bodyThree 2).length ≤ 2 :=
  ((c5_history_normalizer bodyThree 2).2 (by decide)).1

/-- C2: when the resolved query is empty after all fallbacks, the
handler returns the 400 client error and performs no external call at
all (no embedding, no retrieval, no completion) and returns no partial
answer; conversely a non-empty resolved query never yields this client
error. -/
theorem c2_empty_query (rpcName : Str) (mt : ℚ) (o : Oracles) (body : ChatBody) :
    (lastUserFromHistory body = [] →
      POST rpcName mt o body =
        (ChatResponse.clientError "question (or message) is required".data, [])) ∧
    (lastUserFromHistory body ≠ [] →
      ∀ s, (POST rpcName mt o body).1 ≠ ChatResponse.clientError s) := by
  constructor
  · intro hq
    simp only [POST]
    rw [if_pos hq]
  · intro hq s
    simp only [POST]
    rw [if_neg hq]
    cases o.embedResult with
    | error e => simp
    | ok v =>
      cases o.rpcResult with
      | error m => simp
      | ok rows =>
        cases o.chatResult with
        | error e => simp
        | ok content => simp

/-- C2 witness: a body with no question, message, or messages resolves
to the empty query and short-circuits with the 400 error and an empty
call trace. -/
theorem c2_witness :
    POST rpcDefault 0 oDummy bodyNoQ =
      (ChatResponse.clientError "question (or message) is required".data, []) :=
  (c2_empty_query rpcDefault 0 oDummy bodyNoQ).1 (by decide)

/-- C8: on every successful request, the effective result count
reported in `meta.top_k` and passed to the retrieval call is the
requested `top_k` clamped to `[1, 60]`, defaulting to 20 when absent:
values below 1 yield 1, values above 60 yield 60, and in-range values
are used unchanged. -/
theorem c8_top_k_clamp (rpcName : Str) (mt : ℚ) (o : Oracles) (body : ChatBody)
    (ans : Str) (refs : List Reference) (meta : Meta)
    (h : (POST rpcName mt o body).1 = ChatResponse.ok ans refs meta) :
    (body.top_k = none → meta.top_k = 20) ∧
    (∀ t, body.top_k = some t → 1 ≤ t → t ≤ 60 → meta.top_k = t) ∧
    (∀ t, body.top_k = some t → t < 1 → meta.top_k = 1) ∧
    (∀ t, body.top_k = some t → 60 < t → meta.top_k = 60) ∧
    (∀ name k thr, Call.rpc name k thr ∈ (POST rpcName mt o body).2 →
      k = meta.top_k) := by
  have hK : meta.top_k = max 1 (min (body.top_k.getD 20) 60) ∧
      ∀ name k thr, Call.rpc name k thr ∈ (POST rpcName mt o body).2 →
        k = max 1 (min (body.top_k.getD 20) 60) := by
    by_cases hq : lastUserFromHistory body = []
    · simp only [POST, if_pos hq] at h
      simp at h
    · simp only [POST, if_neg hq] at h ⊢
      cases he : o.embedResult with
      | error e => rw [he] at h; simp at h
      | ok v =>
        rw [he] at h
        cases hr : o.rpcResult with
        | error m => rw [hr] at h; simp at h
        | ok rows =>
          rw [hr] at h
          cases hc : o.chatResult with
          | error e2 => rw [hc] at h; simp at h
          | ok content =>
            rw [hc] at h
            simp only [ChatResponse.ok.injEq] at h
            obtain ⟨h1, h2, h3⟩ := h
            subst h3
            refine ⟨rfl, ?_⟩
            intro name k thr hmem
            simp only [List.mem_cons, List.not_mem_nil, or_false] at hmem
            rcases hmem with hx | hx | hx
            · exact absurd hx (by simp)
            · exact (Call.rpc.injEq _ _ _ _ _ _).mp hx |>.2.1
            · exact absurd hx (by simp)
  refine ⟨?_, ?_, ?_, ?_, ?_⟩
  · intro ht
    rw [hK.1, ht]
    norm_num
  · intro t ht h1 h60
    rw [hK.1, ht, Option.getD_some, min_eq_left h60, max_eq_right h1]
  · intro t ht hlt
    rw [hK.1, ht, Option.getD_some, min_eq_left (by linarith), max_eq_left (by linarith)]
  · intro t ht hgt
    rw [hK.1, ht, Option.getD_some, min_eq_right (by linarith)]
    norm_num
  · intro name k thr hmem
    rw [hK.1]
    exact hK.2 name k thr hmem

/-- C8 witness: requesting `top_k = 100` yields an effective and
reported count of 60. -/
theorem c8_witness : metaTopK100.top_k = 60 :=
  ((c8_top_k_clamp rpcDefault 0 oDummy bodyTopK100 [] [] metaTopK100
      (by decide)).2.2.2.1) 100 (by decide) (by norm_num)

/-- C9: on every successful request the answer is the first
completion's text, substituting the empty string when the completion
text is absent, and `references` is exactly one `\x7bsource, score\x7d`
entry per evidence record actually sent, in retrieval order — aligned
index-by-index with the records from which the digest entries `[#i]`
were built, as witnessed by the assembled prompt in the chat call. -/
theorem c9_answer_references (rpcName : Str) (mt : ℚ) (o : Oracles)
    (body : ChatBody) (v : List ℚ) (rows : List Row) (content : Option Str)
    (hq : lastUserFromHistory body ≠ [])
    (he : o.embedResult = Except.ok v)
    (hr : o.rpcResult = Except.ok rows)
    (hc : o.chatResult = Except.ok content) :
    (POST rpcName mt o body).1 =
      ChatResponse.ok (content.getD [])
        ((normalizeRows rows).map fun r => { source := r.source, score := r.similarity })
        { top_k := max 1 (min (body.top_k.getD 20) 60), rpc := rpcName,
          hits := (normalizeRows rows).length, threshold := mt,
          used_history := (normalizeHistory body 60).length } ∧
    Call.chat (buildMessagesWithHistory (lastUserFromHistory body)
        (normalizeHistory body 60)
        ((normalizeRows rows).map fun r => { text := r.text, source := r.source }))
      ∈ (POST rpcName mt o body).2 ∧
    ((normalizeRows rows).map fun r =>
        ({ source := r.source, score := r.similarity } : Reference)).length
      = (normalizeRows rows).length ∧
    (∀ i : Nat, ((normalizeRows rows).map fun r =>
        ({ source := r.source, score := r.similarity } : Reference))[i]?
      = ((normalizeRows rows)[i]?).map fun r =>
          { source := r.source, score := r.similarity }) := by
  refine ⟨?_, ?_, List.length_map _ _, fun i => List.getElem?_map _ _ _⟩
  · simp only [POST, if_neg hq, he, hr, hc]
  · simp only [POST, if_neg hq, he, hr, hc]
    simp

/-- C9 witness: the spec's end-to-end scenario with one retrieved
record and a completion returning no content — the answer degrades to
the empty string and `references` carries the record's source and
score. -/
theorem c9_witness :
    (POST rpcDefault 0 oDoc1 bodyWhatIsX).1 =
      ChatResponse.ok ((none : Option Str).getD [])
        ((normalizeRows [rowDoc1]).map fun r => { source := r.source, score := r.similarity })
        { top_k := max 1 (min (bodyWhatIsX.top_k.getD 20) 60), rpc := rpcDefault,
          hits := (normalizeRows [rowDoc1]).length, threshold := 0,
          used_history := (normalizeHistory bodyWhatIsX 60).length } :=
  (c9_answer_references rpcDefault 0 oDoc1 bodyWhatIsX [] [rowDoc1] none
    (by decide) rfl rfl rfl).1

/-- C10: every turn kept by the History Normalizer has content of at
most 4000 characters (truncation happens before inclusion), and a turn
whose first 4000 characters are all whitespace is dropped before the
emptiness check even when non-whitespace text follows beyond that
point. -/
theorem c10_truncation :
    (∀ (body : ChatBody) (n : Nat), ∀ m ∈ normalizeHistory body n,
      m.content.length ≤ 4000) ∧
    (∀ (r : RawMsg) (pre post : List (Option RawMsg)),
      jsTrim ((r.content.getD []).take 4000) = [] →
      cleanTurns (pre ++ some r :: post) = cleanTurns (pre ++ post)) := by
  constructor
  · intro body n m hm
    have hmem : m ∈ cleanTurns (body.messages.getD []) := by
      unfold normalizeHistory jsSliceFromEnd at hm
      split at hm
      · exact hm
      · exact List.drop_subset _ _ hm
    exact (cleanTurns_mem hmem).2.2
  · intro r pre post htrim
    have hsingle : cleanTurns [some r] = [] := by
      unfold cleanTurns
      cases hb : ((some r).map RawMsg.role == some "user".data ||
          (some r).map RawMsg.role == some "assistant".data) with
      | false => simp [List.filter_cons, hb, htrim]
      | true => simp [List.filter_cons, hb, htrim]
    have hsplit : pre ++ some r :: post = pre ++ ([some r] ++ post) := by simp
    rw [hsplit, cleanTurns_append, cleanTurns_append, hsingle, List.nil_append,
      ← cleanTurns_append]

set_option maxRecDepth 100000 in
/-- C10 witness: a turn of 4000 spaces followed by an `x` contributes
nothing to the sanitized history. -/
theorem c10_witness :
    cleanTurns ([] ++ some wsTurn :: []) = cleanTurns ([] ++ []) :=
  c10_truncation.2 wsTurn [] [] (by decide)
